import Mathlib

/-!
Shallow embedding of `aws/rust-runtime/aws-config/src/profile/credential/exec.rs`:
resolution of a declarative profile credential chain into a base provider plus
ordered assume-role hops (`ProviderChain::from_repr`), execution of one hop
(`AssumeRoleProvider::credentials`), and the named-provider registry
(`named::NamedProviderFactory`).

Collaborators that the file uses but that live outside it (the session-name
generator and credential translator of `sts::util`, the generated SDK request
builders, the `Display` impl of `ProfileFileError`, the in-memory
`ProvideCredentials` impl for a `Credentials` value, and the chain-level
executor) are modelled from the spec; each such definition carries a doc
comment starting with "Modelled from the spec:".
-/

/-- Canonical credential set (`aws_types::Credentials`): access key id, secret
key, optional session token, optional expiration, and the producing provider
name. -/
structure Credentials where
  access_key_id : String
  secret_access_key : String
  session_token : Option String
  expires_after : Option Nat
  provider_name : String
deriving DecidableEq, Repr

/-- Hop descriptor of the declarative representation (`repr::RoleArn`): a role
arn, an optional external id, an optional session name. -/
structure RoleArn where
  role_arn : String
  external_id : Option String
  session_name : Option String
deriving DecidableEq, Repr

/-- Base-provider variants of the declarative representation
(`repr::BaseProvider`). -/
inductive BaseProvider where
  | NamedSource (name : String)
  | AccessKey (key : Credentials)
  | WebIdentityTokenRole (role_arn : String) (web_identity_token_file : String)
      (session_name : Option String)
deriving DecidableEq, Repr

/-- Declarative chain (`repr::ProfileChain`): one base provider plus the
ordered hop descriptors. -/
structure ProfileChain where
  base : BaseProvider
  chain : List RoleArn
deriving DecidableEq, Repr

/-- One resolved delegation hop (`AssumeRoleProvider`). -/
structure AssumeRoleProvider where
  role_arn : String
  external_id : Option String
  session_name : Option String
deriving DecidableEq, Repr

/-- Opaque filesystem handle (`aws_types::os_shim_internal::Fs`); plumbing
passed through to the federated-token provider, never inspected here. -/
structure Fs where
deriving DecidableEq, Repr

/-- Opaque connector handle (`smithy_client::DynConnector`); plumbing passed
through to the federated-token provider, never inspected here. -/
structure DynConnector where
deriving DecidableEq, Repr

/-- Static configuration of the federated-token base provider
(`crate::web_identity_token::WebIdentityTokenRole`). -/
structure WebIdentityTokenRole where
  web_identity_token_file : String
  role_arn : String
  session_name : String
deriving DecidableEq, Repr

/-- The federated-token base provider as configured at build time
(`WebIdentityTokenCredentialsProvider::builder()...build()`); opaque to this
core beyond the data stored into it. -/
structure WebIdentityTokenCredentialsProvider where
  static_configuration : WebIdentityTokenRole
  fs : Fs
  connector : DynConnector
  region : Option String
deriving DecidableEq, Repr

/-- Modelled from the spec: `sts::util::default_session_name` is not under
`src/`. Per the spec the default session name is generated deterministically
from a fixed purpose tag with a timestamp-like uniqueness suffix, isolated
behind a single generator; the timestamp is made an explicit argument here. -/
def default_session_name (purpose : String) (now : Nat) : String :=
  purpose ++ "-" ++ toString now

/-- Build-time error type (`ProfileFileError`); `UnknownProvider` is the only
variant this file produces. -/
inductive ProfileFileError where
  | UnknownProvider (name : String)
deriving DecidableEq, Repr

/-- Modelled from the spec: the `Display` impl of `ProfileFileError` is not
under `src/`. The message for `UnknownProvider` is pinned by the in-file test
`error_on_unknown_provider`, which requires it to contain the provider name and
say that the provider is not supported. -/
def ProfileFileError.display : ProfileFileError → String
  | .UnknownProvider name =>
      "profile referenced `" ++ name ++ "` provider but that provider is not supported"

/-- Registry from provider name to a shared provider handle
(`named::NamedProviderFactory`). The hash map is embedded as a key-value list
(keys distinct in intended use) looked up by first matching key; `P` is the
type of registered provider handles (`Arc<dyn ProvideCredentials>`). -/
structure NamedProviderFactory (P : Type) where
  providers : List (String × P)

/-- Registry lookup (`NamedProviderFactory::provider`): pure, synchronous,
absence reported as `none`. -/
def NamedProviderFactory.provider {P : Type} (f : NamedProviderFactory P)
    (name : String) : Option P :=
  (f.providers.find? (fun kv => kv.1 == name)).map (fun kv => kv.2)

/-- The resolved base provider stored in a built chain (the
`Arc<dyn ProvideCredentials>` produced by `ProviderChain::from_repr`), tagged
by the variant that built it. -/
inductive ResolvedBase (P : Type) where
  | named (p : P)
  | accessKey (key : Credentials)
  | webIdentity (p : WebIdentityTokenCredentialsProvider)
deriving DecidableEq, Repr

/-- A resolved chain (`ProviderChain`): base provider plus ordered hops. -/
structure ProviderChain (P : Type) where
  base : ResolvedBase P
  chain : List AssumeRoleProvider
deriving DecidableEq, Repr

/-- Mapping of one hop descriptor into its hop, all three fields carried over
1:1 (the closure inside `from_repr`). -/
def RoleArn.toHop (ra : RoleArn) : AssumeRoleProvider :=
  { role_arn := ra.role_arn, external_id := ra.external_id,
    session_name := ra.session_name }

/-- Base resolution step of `ProviderChain::from_repr` (the `match` on
`repr.base()`): a named source is looked up in the registry and its absence is
the `UnknownProvider` failure; a static key pair becomes the in-memory
provider; a federated-token role builds the opaque provider with the session
name defaulted at build time under the purpose tag
"web-identity-token-profile". `now` stands for the clock read by the
session-name generator. -/
def ProviderChain.resolveBase {P : Type} (fs : Fs) (connector : DynConnector)
    (region : Option String) (base : BaseProvider)
    (factory : NamedProviderFactory P) (now : Nat) :
    Except ProfileFileError (ResolvedBase P) :=
  match base with
  | .NamedSource name =>
    match factory.provider name with
    | none => .error (.UnknownProvider name)
    | some p => .ok (.named p)
  | .AccessKey key => .ok (.accessKey key)
  | .WebIdentityTokenRole role_arn file sess =>
    .ok (.webIdentity
      { static_configuration :=
          { web_identity_token_file := file
            role_arn := role_arn
            session_name :=
              sess.getD (default_session_name "web-identity-token-profile" now) }
        fs := fs, connector := connector, region := region })

/-- Chain building (`ProviderChain::from_repr`): resolve the base, failing fast
on an unknown named source, then map each hop descriptor into an
`AssumeRoleProvider` in declaration order. The builder is pure: it takes no
network boundary, so no network call can be issued on any path. -/
def ProviderChain.from_repr {P : Type} (fs : Fs) (connector : DynConnector)
    (region : Option String) (r : ProfileChain) (factory : NamedProviderFactory P)
    (now : Nat) : Except ProfileFileError (ProviderChain P) :=
  match ProviderChain.resolveBase fs connector region r.base factory now with
  | .error e => .error e
  | .ok base => .ok { base := base, chain := r.chain.map RoleArn.toHop }

/-- Observability events emitted by `from_repr` through its `tracing::info`
calls: the selected base source, then one event per hop to be applied. -/
inductive TraceEvent where
  | baseSelected (base : BaseProvider)
  | willAssumeRole (role_arn : String)
deriving DecidableEq, Repr

/-- Chain building with its emitted observability events made explicit: the
base event fires only after base resolution succeeds (the source logs after the
`?` on the base `match`), followed by one event per hop descriptor emitted
while the hop list is mapped. -/
def ProviderChain.from_repr_traced {P : Type} (fs : Fs) (connector : DynConnector)
    (region : Option String) (r : ProfileChain) (factory : NamedProviderFactory P)
    (now : Nat) : Except ProfileFileError (ProviderChain P) × List TraceEvent :=
  match ProviderChain.resolveBase fs connector region r.base factory now with
  | .error e => (.error e, [])
  | .ok base =>
    (.ok { base := base, chain := r.chain.map RoleArn.toHop },
     .baseSelected r.base :: r.chain.map (fun ra => .willAssumeRole ra.role_arn))

/-- Client configuration handed to hop execution (`ClientConfiguration`); the
raw STS client itself is embedded as the call oracle passed to
`credentials`. -/
structure ClientConfiguration where
  region : Option String
deriving DecidableEq, Repr

/-- Temporary credential set returned by the remote delegation service (the
`credentials` field of the assume-role response). -/
structure StsCredentials where
  access_key_id : String
  secret_access_key : String
  session_token : String
  expiration : Nat
deriving DecidableEq, Repr

/-- Response of the remote assume-role call; the credential set is optional in
the wire shape. -/
structure AssumeRoleResponse where
  credentials : Option StsCredentials
deriving DecidableEq, Repr

/-- Transport or service error produced by the remote boundary, opaque to this
core. -/
structure TransportError where
  message : String
deriving DecidableEq, Repr

/-- Execution-time error type (`aws_types::credential::CredentialsError`);
`ProviderError` wraps the transport cause unchanged. -/
inductive CredentialsError where
  | ProviderError (cause : TransportError)
  | Unhandled (message : String)
deriving DecidableEq, Repr

/-- The assume-role operation as sent to the remote boundary: role arn,
optional external id, session name, plus the scoped configuration (caller
identity and region) the operation was made with. -/
structure AssumeRoleRequest where
  role_arn : String
  external_id : Option String
  role_session_name : String
  caller_credentials : Credentials
  region : Option String
deriving DecidableEq, Repr

/-- Modelled from the spec: `AssumeRole::builder()...build()` is generated SDK
code not under `src/`; per the spec, constructing the delegation request from
role arn, optional external id and session name always succeeds (hop step 3
lists no failure). The `Except` shape records the fallible signature hidden
behind the first in-source `.expect`. -/
def AssumeRole.build (role_arn : String) (external_id : Option String)
    (role_session_name : String) :
    Except String (String × Option String × String) :=
  .ok (role_arn, external_id, role_session_name)

/-- Modelled from the spec: `make_operation` is generated SDK code not under
`src/`; per the spec it attaches the scoped configuration (caller identity as
the credentials provider, and region) and always succeeds before any network
activity. The `Except` shape records the fallible signature hidden behind the
second in-source `.expect`. -/
def make_operation (input : String × Option String × String)
    (caller : Credentials) (region : Option String) :
    Except String AssumeRoleRequest :=
  .ok { role_arn := input.1, external_id := input.2.1,
        role_session_name := input.2.2,
        caller_credentials := caller, region := region }

/-- The operation `AssumeRoleProvider::credentials` constructs before issuing
the network call, with the session name defaulted under the purpose tag
"assume-role-from-profile" when absent; `none` is the panic of the two
in-source `.expect`s. -/
def AssumeRoleProvider.mk_operation (self : AssumeRoleProvider)
    (input_credentials : Credentials) (client_config : ClientConfiguration)
    (now : Nat) : Option AssumeRoleRequest :=
  let session_name :=
    self.session_name.getD (default_session_name "assume-role-from-profile" now)
  match AssumeRole.build self.role_arn self.external_id session_name with
  | .error _ => none
  | .ok input =>
    match make_operation input input_credentials client_config.region with
    | .error _ => none
    | .ok op => some op

/-- The request a hop actually produces (total form of `mk_operation`). -/
def AssumeRoleProvider.request (self : AssumeRoleProvider)
    (input_credentials : Credentials) (client_config : ClientConfiguration)
    (now : Nat) : AssumeRoleRequest :=
  { role_arn := self.role_arn
    external_id := self.external_id
    role_session_name :=
      self.session_name.getD (default_session_name "assume-role-from-profile" now)
    caller_credentials := input_credentials
    region := client_config.region }

/-- Modelled from the spec: `sts::util::into_credentials` is not under `src/`;
per the spec it extracts the returned temporary credential set and translates
it into the canonical `Credentials` shape tagged with the hop provider
identity, an absent set being a provider failure rather than a credential. -/
def into_credentials (sts_creds : Option StsCredentials) (provider : String) :
    Except CredentialsError Credentials :=
  match sts_creds with
  | none => .error (.Unhandled "STS client must return credentials")
  | some c =>
    .ok { access_key_id := c.access_key_id
          secret_access_key := c.secret_access_key
          session_token := some c.session_token
          expires_after := some c.expiration
          provider_name := provider }

/-- Hop execution (`AssumeRoleProvider::credentials`): build the scoped
configuration and the operation, issue one call through the supplied remote
boundary `call` (the sole suspension point), wrap a transport failure as
`ProviderError` keeping the cause, and translate success through
`into_credentials` under the identity "AssumeRoleProvider". The outer `none` is
the panic of the two in-source `.expect`s, proved unreachable below. -/
def AssumeRoleProvider.credentials (self : AssumeRoleProvider)
    (input_credentials : Credentials) (client_config : ClientConfiguration)
    (now : Nat)
    (call : AssumeRoleRequest → Except TransportError AssumeRoleResponse) :
    Option (Except CredentialsError Credentials) :=
  match self.mk_operation input_credentials client_config now with
  | none => none
  | some operation =>
    some (match call operation with
      | .error err => .error (.ProviderError err)
      | .ok resp => into_credentials resp.credentials "AssumeRoleProvider")

/-- Modelled from the spec: the `ProvideCredentials` impl for a `Credentials`
value (the object a static key pair base is resolved to) lives in `aws_types`,
not under `src/`; per the spec it is an in-memory credential-supplying object
that returns its stored value, taking no network boundary at all. -/
def staticProvideCredentials (key : Credentials) :
    Except CredentialsError Credentials :=
  .ok key

/-- Modelled from the spec: the chain-level executor is implicit in this file
(build plus use by the caller); per the spec it folds base credentials through
the hops strictly sequentially, each hop consuming exactly the previous result
as caller identity and the fold halting at the first failure. The ordered list
of requests issued to the remote boundary is returned alongside the result. -/
def execChain (cfg : ClientConfiguration) (now : Nat)
    (call : AssumeRoleRequest → Except TransportError AssumeRoleResponse) :
    Credentials → List AssumeRoleProvider →
      List AssumeRoleRequest × Except CredentialsError Credentials
  | creds, [] => ([], .ok creds)
  | creds, hop :: rest =>
    let req := hop.request creds cfg now
    match hop.credentials creds cfg now call with
    | none => ([req], .error (.Unhandled "assume role operation construction panicked"))
    | some (.error e) => ([req], .error e)
    | some (.ok out) =>
      let next := execChain cfg now call out rest
      (req :: next.1, next.2)

/-! ### Helper lemmas and example values -/

lemma dsn_head_assume (t : Nat) :
    (default_session_name "assume-role-from-profile" t).data.head? = some 'a' := by
  unfold default_session_name
  rw [String.data_append, String.data_append]
  rfl

lemma dsn_head_web (t : Nat) :
    (default_session_name "web-identity-token-profile" t).data.head? = some 'w' := by
  unfold default_session_name
  rw [String.data_append, String.data_append]
  rfl

lemma dsn_ne (n m : Nat) :
    default_session_name "assume-role-from-profile" n
      ≠ default_session_name "web-identity-token-profile" m := by
  intro h
  have h2 := congrArg (fun s => s.data.head?) h
  simp only [dsn_head_assume, dsn_head_web] at h2
  exact absurd (Option.some.inj h2) (by decide)

lemma dsn_ne_empty (t : Nat) :
    default_session_name "assume-role-from-profile" t ≠ "" := by
  intro h
  have h2 := congrArg (fun s => s.data.head?) h
  simp only [dsn_head_assume] at h2
  simp at h2

/-- Post-processing of the remote response inside
`AssumeRoleProvider::credentials`, shared by the execution lemmas. -/
def processResponse (r : Except TransportError AssumeRoleResponse) :
    Except CredentialsError Credentials :=
  match r with
  | .error err => .error (.ProviderError err)
  | .ok resp => into_credentials resp.credentials "AssumeRoleProvider"

lemma mk_operation_eq (self : AssumeRoleProvider) (input : Credentials)
    (cfg : ClientConfiguration) (now : Nat) :
    self.mk_operation input cfg now = some (self.request input cfg now) := rfl

lemma credentials_eq (self : AssumeRoleProvider) (input : Credentials)
    (cfg : ClientConfiguration) (now : Nat)
    (call : AssumeRoleRequest → Except TransportError AssumeRoleResponse) :
    self.credentials input cfg now call
      = some (processResponse (call (self.request input cfg now))) := rfl

/-- Example credentials used by the witness theorems. -/
def exCreds : Credentials :=
  { access_key_id := "AKIAEXAMPLE", secret_access_key := "sk", session_token := none,
    expires_after := none, provider_name := "Static" }

/-- Example client configuration used by the witness theorems. -/
def exCfg : ClientConfiguration := { region := some "us-east-1" }

/-- Example hop with no explicit session name. -/
def exHop1 : AssumeRoleProvider :=
  { role_arn := "arn:aws:iam::111111111111:role/A", external_id := none,
    session_name := none }

/-- Example hop with an external id and an explicit session name. -/
def exHop2 : AssumeRoleProvider :=
  { role_arn := "arn:aws:iam::111111111111:role/B", external_id := some "eid",
    session_name := some "sess" }

/-- Example remote boundary that answers every request with a fresh
credential set derived from the requested role. -/
def exCall : AssumeRoleRequest → Except TransportError AssumeRoleResponse :=
  fun req =>
    .ok { credentials := some { access_key_id := "AK-" ++ req.role_arn,
                                secret_access_key := "SK",
                                session_token := "TOK", expiration := 1234 } }

/-- Example registry with a single entry, provider handles being numbers. -/
def exFactory : NamedProviderFactory Nat := { providers := [("Environment", 7)] }

/-- Example empty registry. -/
def exEmptyFactory : NamedProviderFactory Nat := { providers := [] }

/-! ### Claim theorems -/

/-- C1: building a chain whose base is a named source absent from the registry
fails with `UnknownProvider` for that name; the traced run shows no hop event
and no base event is emitted before the failure (and the pure builder takes no
network boundary at all, so no network call is possible); the display message
contains the name and says the provider is not supported. -/
theorem claim_C1 {P : Type} (fs : Fs) (conn : DynConnector) (region : Option String)
    (hops : List RoleArn) (factory : NamedProviderFactory P) (name : String)
    (now : Nat) (habs : factory.provider name = none) :
    ProviderChain.from_repr fs conn region ⟨.NamedSource name, hops⟩ factory now
        = .error (.UnknownProvider name)
    ∧ ProviderChain.from_repr_traced fs conn region ⟨.NamedSource name, hops⟩ factory now
        = (.error (.UnknownProvider name), [])
    ∧ (ProfileFileError.UnknownProvider name).display
        = "profile referenced `" ++ name
          ++ "` provider but that provider is not supported"
    ∧ (∃ l r, (ProfileFileError.UnknownProvider name).display = l ++ name ++ r)
    ∧ (∃ l r, (ProfileFileError.UnknownProvider name).display
        = l ++ "not supported" ++ r) := by
  refine ⟨?_, ?_, rfl, ?_, ?_⟩
  · simp [ProviderChain.from_repr, ProviderChain.resolveBase, habs]
  · simp [ProviderChain.from_repr_traced, ProviderChain.resolveBase, habs]
  · exact ⟨"profile referenced `",
      "` provider but that provider is not supported", rfl⟩
  · refine ⟨"profile referenced `" ++ name ++ "` provider but that provider is ",
      "", ?_⟩
    show "profile referenced `" ++ name
        ++ "` provider but that provider is not supported" = _
    rw [String.append_empty,
        String.append_assoc ("profile referenced `" ++ name)]
    congr 1

/-- C1 witness: the scenario of the in-file test, an empty registry and the
base source "floozle". -/
theorem claim_C1_witness :
    ProviderChain.from_repr ⟨⟩ ⟨⟩ (some "us-east-1")
        ⟨.NamedSource "floozle", []⟩ exEmptyFactory 0
      = .error (.UnknownProvider "floozle") :=
  (claim_C1 ⟨⟩ ⟨⟩ (some "us-east-1") [] exEmptyFactory "floozle" 0 rfl).1

/-- C2: on a successful build the resulting chain is exactly the declared hop
descriptors mapped one-to-one through `RoleArn.toHop` (role arn, external id
and session name carried over), so it has the declared length and order; the
failure case of the result type carries no chain at all. -/
theorem claim_C2 {P : Type} (fs : Fs) (conn : DynConnector) (region : Option String)
    (r : ProfileChain) (factory : NamedProviderFactory P) (now : Nat)
    (pc : ProviderChain P)
    (hok : ProviderChain.from_repr fs conn region r factory now = .ok pc) :
    pc.chain = r.chain.map RoleArn.toHop
    ∧ pc.chain.length = r.chain.length
    ∧ ∀ i : Nat, pc.chain[i]? = (r.chain[i]?).map RoleArn.toHop := by
  have hchain : pc.chain = r.chain.map RoleArn.toHop := by
    unfold ProviderChain.from_repr at hok
    cases hres : ProviderChain.resolveBase fs conn region r.base factory now with
    | error e => rw [hres] at hok; cases hok
    | ok base => rw [hres] at hok; cases hok; rfl
  refine ⟨hchain, ?_, ?_⟩
  · rw [hchain, List.length_map]
  · intro i
    rw [hchain, List.getElem?_map]

/-- C2 witness: a static-key base with two declared hops builds a chain of
length two. -/
theorem claim_C2_witness :
    (⟨ResolvedBase.accessKey exCreds,
        [RoleArn.toHop ⟨"r1", none, none⟩, RoleArn.toHop ⟨"r2", some "eid", none⟩]⟩ :
      ProviderChain Nat).chain.length
      = ([⟨"r1", none, none⟩, ⟨"r2", some "eid", none⟩] : List RoleArn).length :=
  (claim_C2 ⟨⟩ ⟨⟩ none ⟨.AccessKey exCreds, [⟨"r1", none, none⟩, ⟨"r2", some "eid", none⟩]⟩
    exFactory 0 _ rfl).2.1

/-- C4: the session name a hop sends is its explicit one when present and
otherwise the default generated under the purpose tag
"assume-role-from-profile", which is non-empty and distinct from every default
generated under the federated-token purpose tag
"web-identity-token-profile". -/
theorem claim_C4 (self : AssumeRoleProvider) (input : Credentials)
    (cfg : ClientConfiguration) (now : Nat) :
    (∀ s, self.session_name = some s →
        (self.request input cfg now).role_session_name = s)
    ∧ (self.session_name = none →
        (self.request input cfg now).role_session_name
            = default_session_name "assume-role-from-profile" now
        ∧ (self.request input cfg now).role_session_name ≠ ""
        ∧ ∀ m, (self.request input cfg now).role_session_name
            ≠ default_session_name "web-identity-token-profile" m) := by
  constructor
  · intro s hs
    simp [AssumeRoleProvider.request, hs]
  · intro hn
    refine ⟨?_, ?_, fun m => ?_⟩
    · simp [AssumeRoleProvider.request, hn]
    · simp only [AssumeRoleProvider.request, hn, Option.getD_none]
      exact dsn_ne_empty now
    · simp only [AssumeRoleProvider.request, hn, Option.getD_none]
      exact dsn_ne now m

/-- C4 witness: the example hop with no explicit session name sends the
defaulted name at time 0. -/
theorem claim_C4_witness :
    (exHop1.request exCreds exCfg 0).role_session_name
      = default_session_name "assume-role-from-profile" 0 :=
  ((claim_C4 exHop1 exCreds exCfg 0).2 rfl).1

/-- C5: when the remote boundary answers the hop request with a transport or
service error, the hop returns `ProviderError` wrapping exactly that cause, and
the hop result depends on the boundary only through its value at the single
request issued (so the call is not retried internally). -/
theorem claim_C5 (self : AssumeRoleProvider) (input : Credentials)
    (cfg : ClientConfiguration) (now : Nat)
    (call : AssumeRoleRequest → Except TransportError AssumeRoleResponse)
    (e : TransportError)
    (herr : call (self.request input cfg now) = .error e) :
    self.credentials input cfg now call = some (.error (.ProviderError e))
    ∧ ∀ call2 : AssumeRoleRequest → Except TransportError AssumeRoleResponse,
        call2 (self.request input cfg now) = call (self.request input cfg now) →
        self.credentials input cfg now call2 = self.credentials input cfg now call := by
  constructor
  · rw [credentials_eq, herr]
    rfl
  · intro call2 hsame
    rw [credentials_eq, credentials_eq, hsame]

/-- C5 witness: a boundary that always fails makes the example hop return the
wrapped cause. -/
theorem claim_C5_witness :
    exHop1.credentials exCreds exCfg 0 (fun _ => .error ⟨"boom"⟩)
      = some (.error (.ProviderError ⟨"boom"⟩)) :=
  (claim_C5 exHop1 exCreds exCfg 0 (fun _ => .error ⟨"boom"⟩) ⟨"boom"⟩ rfl).1

/-- C6: building a chain whose base spec is a static key pair yields the
in-memory base provider holding exactly those credentials, and that provider
supplies exactly them, access key and secret key as given and no session
token; neither step takes a network boundary. -/
theorem claim_C6 {P : Type} (ak sk pn : String) (fs : Fs) (conn : DynConnector)
    (region : Option String) (factory : NamedProviderFactory P)
    (hops : List RoleArn) (now : Nat) :
    ProviderChain.from_repr fs conn region
        ⟨.AccessKey ⟨ak, sk, none, none, pn⟩, hops⟩ factory now
      = .ok ⟨.accessKey ⟨ak, sk, none, none, pn⟩, hops.map RoleArn.toHop⟩
    ∧ staticProvideCredentials ⟨ak, sk, none, none, pn⟩
      = .ok ⟨ak, sk, none, none, pn⟩ :=
  ⟨rfl, rfl⟩

/-- C7: registry lookup is a pure total function into `Option`: it returns a
handle exactly when the name is among the registered keys, the returned handle
is the one registered under that name, and absence is `none`, never an
error. -/
theorem claim_C7 {P : Type} (f : NamedProviderFactory P) (name : String) :
    ((f.provider name).isSome ↔ name ∈ f.providers.map Prod.fst)
    ∧ (∀ p, f.provider name = some p → (name, p) ∈ f.providers)
    ∧ (f.provider name = none ↔ name ∉ f.providers.map Prod.fst) := by
  have hiff : (f.provider name).isSome ↔ name ∈ f.providers.map Prod.fst := by
    unfold NamedProviderFactory.provider
    rw [Option.isSome_map', List.find?_isSome]
    constructor
    · rintro ⟨x, hx, hbeq⟩
      rw [beq_iff_eq] at hbeq
      exact hbeq ▸ List.mem_map_of_mem Prod.fst hx
    · intro hm
      rw [List.mem_map] at hm
      obtain ⟨a, ha, hfst⟩ := hm
      exact ⟨a, ha, by rw [beq_iff_eq, hfst]⟩
  refine ⟨hiff, ?_, ?_⟩
  · intro p hp
    unfold NamedProviderFactory.provider at hp
    rw [Option.map_eq_some'] at hp
    obtain ⟨kv, hfind, hsnd⟩ := hp
    have h1 := List.find?_some hfind
    have h2 := List.mem_of_find?_eq_some hfind
    rw [beq_iff_eq] at h1
    have hkv : kv = (name, p) := by
      cases kv
      simp_all
    rwa [hkv] at h2
  · rw [← Option.not_isSome_iff_eq_none]
    exact not_congr hiff

/-- C7 witness: the example registry resolves its registered name. -/
theorem claim_C7_witness : "Environment" ∈ exFactory.providers.map Prod.fst :=
  (claim_C7 exFactory "Environment").1.mp (by decide)

/-- C8: when the remote boundary answers the hop request successfully with a
credential set, the hop returns that set translated into the canonical
credentials shape and tagged with the provider identity
"AssumeRoleProvider". -/
theorem claim_C8 (self : AssumeRoleProvider) (input : Credentials)
    (cfg : ClientConfiguration) (now : Nat)
    (call : AssumeRoleRequest → Except TransportError AssumeRoleResponse)
    (resp : AssumeRoleResponse) (sc : StsCredentials)
    (hok : call (self.request input cfg now) = .ok resp)
    (hsc : resp.credentials = some sc) :
    self.credentials input cfg now call
      = some (.ok { access_key_id := sc.access_key_id
                    secret_access_key := sc.secret_access_key
                    session_token := some sc.session_token
                    expires_after := some sc.expiration
                    provider_name := "AssumeRoleProvider" }) := by
  rw [credentials_eq, hok]
  simp [processResponse, into_credentials, hsc]

/-- C8 witness: the example boundary answers the example hop and the result is
the translated credential set tagged with the hop provider identity. -/
theorem claim_C8_witness :
    exHop2.credentials exCreds exCfg 0 exCall
      = some (.ok { access_key_id := "AK-" ++ "arn:aws:iam::111111111111:role/B"
                    secret_access_key := "SK"
                    session_token := some "TOK"
                    expires_after := some 1234
                    provider_name := "AssumeRoleProvider" }) :=
  claim_C8 exHop2 exCreds exCfg 0 exCall
    { credentials := some { access_key_id := "AK-" ++ "arn:aws:iam::111111111111:role/B",
                            secret_access_key := "SK",
                            session_token := "TOK", expiration := 1234 } }
    { access_key_id := "AK-" ++ "arn:aws:iam::111111111111:role/B",
      secret_access_key := "SK", session_token := "TOK", expiration := 1234 }
    rfl rfl

/-- C9: the observability events of the builder do not affect its value: on
every input the result of the traced builder equals the result of the plain
builder. -/
theorem claim_C9 {P : Type} (fs : Fs) (conn : DynConnector) (region : Option String)
    (r : ProfileChain) (factory : NamedProviderFactory P) (now : Nat) :
    (ProviderChain.from_repr_traced fs conn region r factory now).1
      = ProviderChain.from_repr fs conn region r factory now := by
  cases hres : ProviderChain.resolveBase fs conn region r.base factory now with
  | error e =>
    simp [ProviderChain.from_repr_traced, ProviderChain.from_repr, hres]
  | ok base =>
    simp [ProviderChain.from_repr_traced, ProviderChain.from_repr, hres]

/-- C10: for every hop the two in-source panic branches are unreachable: the
operation construction always yields the request, and hop execution always
reaches the boundary and returns a result, never the panic marker. -/
theorem claim_C10 (self : AssumeRoleProvider) (input : Credentials)
    (cfg : ClientConfiguration) (now : Nat) :
    self.mk_operation input cfg now = some (self.request input cfg now)
    ∧ ∀ call : AssumeRoleRequest → Except TransportError AssumeRoleResponse,
        (self.credentials input cfg now call).isSome := by
  refine ⟨mk_operation_eq self input cfg now, fun call => ?_⟩
  rw [credentials_eq]
  rfl

/-- C3: chain execution is strictly sequential: the executor issues at most
one request per declared hop; the first request carries the base credentials
as caller identity; every issued request is the request of the hop at the same
position, built from exactly its own caller identity; and a request at
position i+1 exists only when the hop at position i succeeded on the caller
identity of request i, its output being precisely the caller identity of
request i+1. Hence no hop runs before the previous result is available and no
hop uses credentials from two steps earlier. -/
theorem claim_C3 (cfg : ClientConfiguration) (now : Nat)
    (call : AssumeRoleRequest → Except TransportError AssumeRoleResponse)
    (creds : Credentials) (hops : List AssumeRoleProvider) :
    (execChain cfg now call creds hops).1.length ≤ hops.length
    ∧ (∀ r : AssumeRoleRequest,
        (execChain cfg now call creds hops).1[0]? = some r →
        r.caller_credentials = creds)
    ∧ (∀ (i : Nat) (r : AssumeRoleRequest),
        (execChain cfg now call creds hops).1[i]? = some r →
        ∃ hp : AssumeRoleProvider, hops[i]? = some hp
          ∧ r = hp.request r.caller_credentials cfg now)
    ∧ (∀ (i : Nat) (r r2 : AssumeRoleRequest),
        (execChain cfg now call creds hops).1[i]? = some r →
        (execChain cfg now call creds hops).1[i + 1]? = some r2 →
        ∃ hp : AssumeRoleProvider, hops[i]? = some hp
          ∧ hp.credentials r.caller_credentials cfg now call
              = some (.ok r2.caller_credentials)) := by
  induction hops generalizing creds with
  | nil => simp [execChain]
  | cons hop rest ih =>
    cases hc : hop.credentials creds cfg now call with
    | none =>
      simp only [execChain, hc]
      refine ⟨by simp, ?_, ?_, ?_⟩
      · intro r hr
        rw [List.getElem?_cons_zero] at hr
        cases Option.some.inj hr
        rfl
      · intro i r hr
        cases i with
        | zero =>
          rw [List.getElem?_cons_zero] at hr
          cases Option.some.inj hr
          exact ⟨hop, by simp, rfl⟩
        | succ j =>
          rw [List.getElem?_cons_succ] at hr
          simp at hr
      · intro i r r2 hr hr2
        rw [List.getElem?_cons_succ] at hr2
        simp at hr2
    | some res =>
      cases res with
      | error e =>
        simp only [execChain, hc]
        refine ⟨by simp, ?_, ?_, ?_⟩
        · intro r hr
          rw [List.getElem?_cons_zero] at hr
          cases Option.some.inj hr
          rfl
        · intro i r hr
          cases i with
          | zero =>
            rw [List.getElem?_cons_zero] at hr
            cases Option.some.inj hr
            exact ⟨hop, by simp, rfl⟩
          | succ j =>
            rw [List.getElem?_cons_succ] at hr
            simp at hr
        · intro i r r2 hr hr2
          rw [List.getElem?_cons_succ] at hr2
          simp at hr2
      | ok out =>
        obtain ⟨ih1, ih2, ih3, ih4⟩ := ih out
        simp only [execChain, hc]
        refine ⟨?_, ?_, ?_, ?_⟩
        · simpa using Nat.succ_le_succ ih1
        · intro r hr
          rw [List.getElem?_cons_zero] at hr
          cases Option.some.inj hr
          rfl
        · intro i r hr
          cases i with
          | zero =>
            rw [List.getElem?_cons_zero] at hr
            cases Option.some.inj hr
            exact ⟨hop, by simp, rfl⟩
          | succ j =>
            rw [List.getElem?_cons_succ] at hr
            obtain ⟨hp, hhp, hreq⟩ := ih3 j r hr
            exact ⟨hp, by rw [List.getElem?_cons_succ]; exact hhp, hreq⟩
        · intro i r r2 hr hr2
          cases i with
          | zero =>
            rw [List.getElem?_cons_zero] at hr
            cases Option.some.inj hr
            rw [List.getElem?_cons_succ] at hr2
            have hout : r2.caller_credentials = out := ih2 r2 hr2
            refine ⟨hop, by simp, ?_⟩
            rw [hout]
            exact hc
          | succ j =>
            rw [List.getElem?_cons_succ] at hr
            rw [List.getElem?_cons_succ] at hr2
            obtain ⟨hp, hhp, hcred⟩ := ih4 j r r2 hr hr2
            exact ⟨hp, by rw [List.getElem?_cons_succ]; exact hhp, hcred⟩

/-- C3 witness: on a concrete two-hop chain the first issued request carries
the base credentials as caller identity. -/
theorem claim_C3_witness :
    (exHop1.request exCreds exCfg 0).caller_credentials = exCreds :=
  (claim_C3 exCfg 0 exCall exCreds [exHop1, exHop2]).2.1
    (exHop1.request exCreds exCfg 0) (by decide)
